import Mathlib

/-!
Verification of the BESS (battery energy storage) data-generation core,
a shallow embedding of `src/data.py`.

Modelling conventions:
* Python float arithmetic is modelled exactly over `ℚ` for the per-technology
  trend formulas and over `ℝ` for the LCOS calculator (whose annuity term uses
  a real exponent).
* Python `round(x, 2)` is modelled as `(round (x * 100)) / 100` with Mathlib's
  `round` (nearest integer, half up).  No value rounded in this development sits
  on a half-way tie, so the tie-breaking convention is immaterial here.
* Python `int(x)` (truncation toward zero) is modelled by `pyTrunc`.
* The mutable loop variables `capex, efficiency, cycles, energy_density,
  opex_percent` of `get_bess_data` are modelled as an explicit record `RawVars`
  threaded through a fold, so that statements about initialization and
  carried-over state are faithful to the source.
-/

namespace Bess

/-- Python `round(x, 2)` on exact rationals: round `x * 100` to the nearest
integer and divide back. -/
def round2 (x : ℚ) : ℚ := (round (x * 100) : ℚ) / 100

/-- Python `round(x, 2)` on reals (used for the LCOS result, line 173). -/
noncomputable def round2R (x : ℝ) : ℝ := (round (x * 100) : ℝ) / 100

/-- Python `int(x)`: truncation toward zero (lines 124-125). -/
def pyTrunc (x : ℚ) : ℤ := if 0 ≤ x then ⌊x⌋ else ⌈x⌉

/-- The five mutable metric variables of the generation loop
(`capex, efficiency, cycles, energy_density, opex_percent`, lines 31-35). -/
structure RawVars where
  capex : ℚ
  efficiency : ℚ
  cycles : ℚ
  energyDensity : ℚ
  opexPercent : ℚ
  deriving DecidableEq, Repr

/-- The per-iteration re-initialization of the metric variables
(`data.py` lines 31-35: every variable is reset to `0`). -/
def initVars : RawVars := ⟨0, 0, 0, 0, 0⟩

/-- The `if tech == ... / elif ...` dispatch chain of `get_bess_data`
(`data.py` lines 40-111).  Each branch assigns the variables that the source
assigns and leaves the rest of the incoming state `v` untouched; a technology
name matching no branch leaves `v` unchanged (there is no `else`). -/
def dispatch (tech : String) (year : ℕ) (v : RawVars) : RawVars :=
  if tech = "Li-ion LFP" then
    { v with capex := 130 * (0.95 : ℚ) ^ year,
             efficiency := 95 + 0.1 * year,
             cycles := 6000 + 200 * year,
             energyDensity := 350 + 10 * year,
             opexPercent := 1.5 }
  else if tech = "Li-ion NMC" then
    { v with capex := 145 * (0.96 : ℚ) ^ year,
             efficiency := 96 + 0.05 * year,
             cycles := 4000 + 100 * year,
             energyDensity := 450 + 15 * year,
             opexPercent := 2.0 }
  else if tech = "Lead-Acid" then
    { v with capex := 100 * (0.99 : ℚ) ^ year,
             efficiency := 85 + 0.1 * year,
             cycles := 1500 + 10 * year,
             energyDensity := 80,
             opexPercent := 3.0 }
  else if tech = "Vanadium Redox Flow" then
    { v with capex := 250 * (0.90 : ℚ) ^ year,
             efficiency := 75 + 0.5 * year,
             cycles := 20000,
             energyDensity := 40 + 2 * year,
             opexPercent := 1.0 }
  else if tech = "Sodium-ion" then
    { v with capex := (if year = 0 then (150 : ℚ) else 110) * (0.92 : ℚ) ^ year,
             efficiency := 92 + 0.2 * year,
             cycles := 4000 + 300 * year,
             energyDensity := 250 + 15 * year,
             opexPercent := 1.5 }
  else if tech = "Solid State" then
    -- lines 81-91: `capex` is assigned only for `year == 0` and `year >= 3`;
    -- otherwise it keeps the incoming value (the freshly initialized 0).
    { v with capex := if year = 0 then (800 : ℚ)
                      else if 3 ≤ year then 400 * (0.85 : ℚ) ^ (year - 3)
                      else v.capex,
             efficiency := 98,
             cycles := 5000 + 500 * year,
             energyDensity := 800 + 20 * year,
             opexPercent := 1.0 }
  else if tech = "Metal-Air (Iron-Air)" then
    { v with capex := if 3 ≤ year then 70 * (0.95 : ℚ) ^ (year - 3) else 200,
             efficiency := 60,
             cycles := 5000,
             energyDensity := 100,
             opexPercent := 0.5 }
  else if tech = "Zinc-Hybrid" then
    { v with capex := 180 * (0.94 : ℚ) ^ year,
             efficiency := 80 + 0.2 * year,
             cycles := 10000,
             energyDensity := 150,
             opexPercent := 1.2 }
  else
    v

/-- The metrics computed for one (technology, horizon) pair: fresh zero
variables (lines 31-35) run through the dispatch chain. -/
def trendMetrics (tech : String) (year : ℕ) : RawVars :=
  dispatch tech year initVars

/-! ## The LCOS calculator (`calculate_simplified_lcos`, lines 132-174) -/

/-- `max_years * 365 * daily_cycles` with `max_years = 20`, `daily_cycles = 1`
(lines 144-147). -/
def total_calendar_cycles : ℝ := 20 * 365 * 1

/-- `realizable_cycles = min(total_physical_cycles, total_calendar_cycles)`
(line 149). -/
noncomputable def realizable_cycles (cycles : ℝ) : ℝ :=
  min cycles total_calendar_cycles

/-- `total_energy_discharged = realizable_cycles * dod * (efficiency / 100.0)`
with `dod = 0.8` (line 151). -/
noncomputable def total_energy_discharged (cycles efficiency : ℝ) : ℝ :=
  realizable_cycles cycles * 0.8 * (efficiency / 100)

/-- `annual_opex = capex * (opex_percent / 100.0)` (line 159). -/
noncomputable def annual_opex (capex opex_percent : ℝ) : ℝ :=
  capex * (opex_percent / 100)

/-- `operational_years = realizable_cycles / 365` (line 162). -/
noncomputable def operational_years (cycles : ℝ) : ℝ :=
  realizable_cycles cycles / 365

/-- The O&M net present value (lines 163-166), with `discount_rate = 0.07`;
the exponent `-operational_years` is a real exponent (`Real.rpow`). -/
noncomputable def opex_npv (capex opex_percent cycles : ℝ) : ℝ :=
  if (0.07 : ℝ) > 0 then
    annual_opex capex opex_percent *
      ((1 - (1 + 0.07) ^ (-operational_years cycles)) / 0.07)
  else
    annual_opex capex opex_percent * operational_years cycles

/-- `calculate_simplified_lcos` (lines 132-174): total cost over total energy
discharged, scaled to $/MWh, rounded to 2 decimals; `0` when no energy is
discharged. -/
noncomputable def calculate_simplified_lcos
    (capex opex_percent cycles efficiency : ℝ) : ℝ :=
  if total_energy_discharged cycles efficiency > 0 then
    round2R ((capex + opex_npv capex opex_percent cycles) /
      total_energy_discharged cycles efficiency * 1000)
  else 0

/-- The LCOS value prescribed, step by step, by spec section 4.2 for the case
`energy_discharged > 0`.  This definition is written from the spec's words
(dod 0.8, r 0.07, calendar cap 20·365·1 = 7300, realizable cycles
`min(cycle_life, 7300)`, annuity with `operational_years` as a real exponent)
to be compared with `calculate_simplified_lcos`, which is written from the
source. -/
noncomputable def lcos_spec
    (capex opex_pct cycle_life efficiency_pct : ℝ) : ℝ :=
  round2R ((capex + capex * (opex_pct / 100) *
      ((1 - (1.07 : ℝ) ^ (-(min cycle_life 7300 / 365))) / 0.07)) /
    (min cycle_life 7300 * 0.8 * (efficiency_pct / 100)) * 1000)

/-! ## Row assembly and the generation loop (`get_bess_data`, lines 4-130) -/

/-- One output record (the dict appended at lines 116-128). -/
structure Row where
  technology : String
  category : String
  maturity : String
  timeframeYears : ℕ
  year : ℕ
  capex : ℚ
  efficiency : ℚ
  cycleLife : ℤ
  energyDensity : ℤ
  opexPercent : ℚ
  lcos : ℝ

/-- A catalog entry: name plus the `Type`/`Maturity` metadata
(lines 13-22). -/
structure CatEntry where
  name : String
  category : String
  maturity : String

/-- The record built from the (already clamped) variable state `v`
(lines 116-128): displayed CAPEX and efficiency are rounded to 2 decimals,
cycle life and energy density are truncated to integers, and the LCOS field is
computed from the unrounded `capex`, `opex_percent`, `cycles`, `efficiency`. -/
noncomputable def rowFrom (t : CatEntry) (year : ℕ) (v : RawVars) : Row :=
  { technology := t.name
    category := t.category
    maturity := t.maturity
    timeframeYears := year
    year := 2025 + year
    capex := round2 v.capex
    efficiency := round2 v.efficiency
    cycleLife := pyTrunc v.cycles
    energyDensity := pyTrunc v.energyDensity
    opexPercent := v.opexPercent
    lcos := calculate_simplified_lcos v.capex v.opexPercent v.cycles
      v.efficiency }

/-- The clamp `efficiency = min(efficiency, 99.9)` (line 114), applied to the
variable state after the dispatch. -/
def clampEff (v : RawVars) : RawVars :=
  { v with efficiency := min v.efficiency 99.9 }

/-- The record produced for one (technology, horizon) pair, as a pure function
of the pair: fresh variables, dispatch, clamp, row assembly. -/
noncomputable def makeRow (t : CatEntry) (year : ℕ) : Row :=
  rowFrom t year (clampEff (trendMetrics t.name year))

/-- One iteration of the inner loop body (lines 30-128) as a state
transformer: the incoming variable state `s` is overwritten by the
re-initialization (lines 31-35), the dispatch and the clamp update it, and the
resulting record is appended to the accumulated list. -/
noncomputable def loopStep (t : CatEntry) (year : ℕ)
    (acc : RawVars × List Row) : RawVars × List Row :=
  let v := clampEff (dispatch t.name year initVars)
  (v, acc.2 ++ [rowFrom t year v])

/-- `get_bess_data` embedded with its mutable loop state made explicit: the
fold starts from an arbitrary initial variable state `s` (in Python the
variables do not even exist before the first iteration) and threads it through
every (technology, horizon) iteration, technology-major. -/
noncomputable def getBessDataLoop (s : RawVars) (catalog : List CatEntry)
    (timeframes : List ℕ) : List Row :=
  (catalog.foldl
    (fun acc t => timeframes.foldl (fun a y => loopStep t y a) acc)
    (s, [])).2

/-- The generation as a pure per-pair map: one record per (technology,
horizon) pair, technology-major then horizon-minor. -/
noncomputable def getBessData (catalog : List CatEntry)
    (timeframes : List ℕ) : List Row :=
  catalog.flatMap (fun t => timeframes.map (fun y => makeRow t y))

/-- The hardcoded technology catalog (lines 13-22). -/
def techCatalog : List CatEntry :=
  [⟨"Li-ion LFP", "Commercial", "Mature"⟩,
   ⟨"Li-ion NMC", "Commercial", "Mature"⟩,
   ⟨"Lead-Acid", "Commercial", "Legacy"⟩,
   ⟨"Vanadium Redox Flow", "Commercial", "Early Commercial"⟩,
   ⟨"Sodium-ion", "Developing", "Early Commercial"⟩,
   ⟨"Solid State", "Developing", "R&D/Pilot"⟩,
   ⟨"Metal-Air (Iron-Air)", "Developing", "Pilot"⟩,
   ⟨"Zinc-Hybrid", "Developing", "Pilot"⟩]

/-- The hardcoded horizon set `timeframes = [0, 3, 5, 10]` (line 24). -/
def timeframes : List ℕ := [0, 3, 5, 10]

/-- The full dataset produced by `get_bess_data()`. -/
noncomputable def bessData : List Row := getBessData techCatalog timeframes

/-- The names carrying a branch of the dispatch chain. -/
def knownTechs : List String :=
  ["Li-ion LFP", "Li-ion NMC", "Lead-Acid", "Vanadium Redox Flow",
   "Sodium-ion", "Solid State", "Metal-Air (Iron-Air)", "Zinc-Hybrid"]

/-! ## Helper lemmas -/

/-- The LCOS calculator at all-zero inputs takes the zero-energy fallback. -/
lemma lcos_at_zero : calculate_simplified_lcos 0 0 0 0 = 0 := by
  have hen : total_energy_discharged (0 : ℝ) 0 = 0 := by
    simp [total_energy_discharged]
  rw [calculate_simplified_lcos, hen]
  norm_num

/-- Rounding to two decimals cannot push a value clamped at `99.9` above
`99.9`, because `99.9 × 100` is an integer. -/
lemma round2_clamp_le (e : ℚ) : round2 (min e 99.9) ≤ 99.9 := by
  have h1 : min e (99.9 : ℚ) * 100 ≤ 9990 := by
    have := min_le_right e (99.9 : ℚ)
    nlinarith
  have h2 : round (min e (99.9 : ℚ) * 100) ≤ (9990 : ℤ) := by
    rw [round_eq]
    calc ⌊min e (99.9 : ℚ) * 100 + 1 / 2⌋
        ≤ ⌊(9990 : ℚ) + 1 / 2⌋ := Int.floor_le_floor (by linarith)
      _ = 9990 := by norm_num
  have h3 : ((round (min e (99.9 : ℚ) * 100) : ℤ) : ℚ) ≤ 9990 := by
    exact_mod_cast h2
  rw [round2]
  linarith

/-- When the trend metrics of a pair are the all-zero variables, the assembled
record is fully defaulted: zero displayed metrics and LCOS 0 through the
zero-energy fallback. -/
lemma makeRow_default (t : CatEntry) (y : ℕ)
    (hd : trendMetrics t.name y = initVars) :
    makeRow t y =
      { technology := t.name, category := t.category, maturity := t.maturity,
        timeframeYears := y, year := 2025 + y, capex := 0, efficiency := 0,
        cycleLife := 0, energyDensity := 0, opexPercent := 0, lcos := 0 } := by
  have hclamp : clampEff initVars = initVars := by
    rw [clampEff, initVars]
    norm_num
  rw [makeRow, hd, hclamp, rowFrom]
  simp [initVars, round2, pyTrunc, lcos_at_zero]

/-! ## Claim theorems -/

/-- C5: for every technology in the catalog, the capex computed at horizon
year 0 equals the documented base value. -/
theorem capex_base_values :
    (trendMetrics "Li-ion LFP" 0).capex = 130 ∧
    (trendMetrics "Li-ion NMC" 0).capex = 145 ∧
    (trendMetrics "Lead-Acid" 0).capex = 100 ∧
    (trendMetrics "Vanadium Redox Flow" 0).capex = 250 ∧
    (trendMetrics "Sodium-ion" 0).capex = 150 ∧
    (trendMetrics "Solid State" 0).capex = 800 ∧
    (trendMetrics "Metal-Air (Iron-Air)" 0).capex = 200 ∧
    (trendMetrics "Zinc-Hybrid" 0).capex = 180 := by
  refine ⟨?_, ?_, ?_, ?_, ?_, ?_, ?_, ?_⟩ <;>
    simp [trendMetrics, dispatch, initVars]

/-- C6: for "Solid State" at any horizon year strictly between 0 and 3
(e.g. year = 1), the capex is the freshly initialized per-iteration default 0:
whatever variable state `s` is left over from a previous iteration, the loop
body re-initializes and produces capex 0, with no error (the embedding is a
total function). -/
theorem solidState_midyear_capex_zero (y : ℕ) (hy1 : 0 < y) (hy2 : y < 3)
    (s : RawVars) (rows : List Row) (t : CatEntry) :
    (trendMetrics "Solid State" y).capex = 0 ∧
    ((loopStep { t with name := "Solid State" } y (s, rows)).1).capex = 0 ∧
    (makeRow { t with name := "Solid State" } y).capex = 0 := by
  have h0 : ¬ y = 0 := by omega
  have h3 : ¬ 3 ≤ y := by omega
  refine ⟨?_, ?_, ?_⟩ <;>
    simp [trendMetrics, dispatch, initVars, loopStep, clampEff, makeRow,
      rowFrom, round2, h0, h3]

/-- C6 witness: the mid-range horizon 1, from the all-zero leftover state and
an empty accumulator. -/
theorem solidState_midyear_capex_zero_witness :
    (trendMetrics "Solid State" 1).capex = 0 ∧
    ((loopStep ⟨"Solid State", "Developing", "R&D/Pilot"⟩ 1
      (initVars, [])).1).capex = 0 ∧
    (makeRow ⟨"Solid State", "Developing", "R&D/Pilot"⟩ 1).capex = 0 :=
  solidState_midyear_capex_zero 1 (by norm_num) (by norm_num) initVars []
    ⟨"Solid State", "Developing", "R&D/Pilot"⟩

/-- C8: for "Li-ion LFP" the rounded capex stored in the output record is
strictly decreasing over the horizons 0, 3, 5, 10. -/
theorem lfp_capex_strict_decreasing :
    (makeRow ⟨"Li-ion LFP", "Commercial", "Mature"⟩ 3).capex <
      (makeRow ⟨"Li-ion LFP", "Commercial", "Mature"⟩ 0).capex ∧
    (makeRow ⟨"Li-ion LFP", "Commercial", "Mature"⟩ 5).capex <
      (makeRow ⟨"Li-ion LFP", "Commercial", "Mature"⟩ 3).capex ∧
    (makeRow ⟨"Li-ion LFP", "Commercial", "Mature"⟩ 10).capex <
      (makeRow ⟨"Li-ion LFP", "Commercial", "Mature"⟩ 5).capex := by
  refine ⟨?_, ?_, ?_⟩ <;>
    norm_num [makeRow, rowFrom, clampEff, trendMetrics, dispatch, initVars,
      round2, round_eq]

/-- C4: every record produced by the generation (every catalog technology at
every horizon in {0, 3, 5, 10}) has its efficiency field at most 99.9; the
bound comes from the uniform clamp applied after each per-technology
formula. -/
theorem efficiency_le_99_9 (r : Row) (hr : r ∈ bessData) :
    r.efficiency ≤ 99.9 := by
  simp only [bessData, getBessData, List.mem_flatMap, List.mem_map] at hr
  obtain ⟨t, -, y, -, rfl⟩ := hr
  have h : (makeRow t y).efficiency =
      round2 (min (trendMetrics t.name y).efficiency 99.9) := by
    simp [makeRow, rowFrom, clampEff]
  rw [h]
  exact round2_clamp_le _

/-- C4 witness: the Li-ion LFP record at horizon 0 is in the dataset and its
efficiency does not exceed 99.9. -/
theorem efficiency_le_99_9_witness :
    (makeRow ⟨"Li-ion LFP", "Commercial", "Mature"⟩ 0).efficiency ≤ 99.9 :=
  efficiency_le_99_9 _ (by
    simp only [bessData, getBessData, List.mem_flatMap, List.mem_map]
    exact ⟨⟨"Li-ion LFP", "Commercial", "Mature"⟩, by simp [techCatalog],
      0, by simp [timeframes], rfl⟩)

/-- C7: for "Vanadium Redox Flow" at every horizon in {0, 3, 5, 10} the
cycle-life metric is the constant 20000, so inside the LCOS calculation the
realizable cycles equal the calendar ceiling 7300. -/
theorem vanadium_cycles_capped (y : ℕ) (hy : y ∈ timeframes) :
    (trendMetrics "Vanadium Redox Flow" y).cycles = 20000 ∧
    realizable_cycles ((trendMetrics "Vanadium Redox Flow" y).cycles : ℝ) =
      7300 := by
  have h : (trendMetrics "Vanadium Redox Flow" y).cycles = 20000 := by
    simp [trendMetrics, dispatch, initVars]
  refine ⟨h, ?_⟩
  rw [h]
  rw [realizable_cycles, total_calendar_cycles]
  norm_num

/-- C7 witness: the capping holds at the concrete horizon 5. -/
theorem vanadium_cycles_capped_witness :
    (trendMetrics "Vanadium Redox Flow" 5).cycles = 20000 ∧
    realizable_cycles ((trendMetrics "Vanadium Redox Flow" 5).cycles : ℝ) =
      7300 :=
  vanadium_cycles_capped 5 (by simp [timeframes])

/-- C1: for all real inputs with positive energy discharged, the source's
`calculate_simplified_lcos` returns exactly the value prescribed by the
9-step algorithm of spec section 4.2. -/
theorem lcos_matches_spec (c o cl e : ℝ)
    (h : 0 < min cl 7300 * 0.8 * (e / 100)) :
    calculate_simplified_lcos c o cl e = lcos_spec c o cl e := by
  have hcal : total_calendar_cycles = 7300 := by
    rw [total_calendar_cycles]; norm_num
  have hen : total_energy_discharged cl e = min cl 7300 * 0.8 * (e / 100) := by
    rw [total_energy_discharged, realizable_cycles, hcal]
  have hnpv : opex_npv c o cl =
      c * (o / 100) * ((1 - (1.07 : ℝ) ^ (-(min cl 7300 / 365))) / 0.07) := by
    rw [opex_npv, if_pos (by norm_num : (0.07 : ℝ) > 0), annual_opex,
      operational_years, realizable_cycles, hcal]
    norm_num
  rw [calculate_simplified_lcos, hen, if_pos h, hnpv, lcos_spec]

/-- C1 witness: at capex 100, opex 3 %, 365 cycles, efficiency 100 % the
energy discharged is positive and the source value agrees with the spec
value. -/
theorem lcos_matches_spec_witness :
    0 < min (365 : ℝ) 7300 * 0.8 * (100 / 100) ∧
    calculate_simplified_lcos 100 3 365 100 = lcos_spec 100 3 365 100 := by
  have h : 0 < min (365 : ℝ) 7300 * 0.8 * (100 / 100) := by
    rw [min_eq_left (by norm_num : (365 : ℝ) ≤ 7300)]
    norm_num
  exact ⟨h, lcos_matches_spec 100 3 365 100 h⟩

/-- C3 counterexample: at capex 0, opex 0, 365 cycles, efficiency 100 the
energy discharged is positive (292), yet the function returns 0 — the quotient
branch itself yields 0 — so "returns 0 exactly when energy discharged is not
strictly positive" is false as stated. -/
theorem lcos_zero_despite_positive_energy :
    0 < total_energy_discharged 365 100 ∧
    calculate_simplified_lcos 0 0 365 100 = 0 := by
  have hen : total_energy_discharged (365 : ℝ) 100 = 292 := by
    rw [total_energy_discharged, realizable_cycles, total_calendar_cycles,
      min_eq_left (by norm_num : (365 : ℝ) ≤ 20 * 365 * 1)]
    norm_num
  have hnpv : opex_npv 0 0 365 = 0 := by
    rw [opex_npv, if_pos (by norm_num : (0.07 : ℝ) > 0), annual_opex]
    norm_num
  refine ⟨by rw [hen]; norm_num, ?_⟩
  rw [calculate_simplified_lcos, hen, if_pos (by norm_num : (292 : ℝ) > 0),
    hnpv, round2R]
  norm_num

/-- C3 amended: `calculate_simplified_lcos` returns the fallback 0 whenever
the energy discharged is not strictly positive (in particular at all-zero
inputs), and whenever the energy discharged is strictly positive it returns
the rounded quotient — which can itself be 0, e.g. when capex is 0. -/
theorem lcos_fallback_and_quotient_branch :
    calculate_simplified_lcos 0 0 0 0 = 0 ∧
    ∀ c o cl e : ℝ,
      (total_energy_discharged cl e ≤ 0 →
        calculate_simplified_lcos c o cl e = 0) ∧
      (0 < total_energy_discharged cl e →
        calculate_simplified_lcos c o cl e =
          round2R ((c + opex_npv c o cl) /
            total_energy_discharged cl e * 1000)) := by
  refine ⟨lcos_at_zero, fun c o cl e => ⟨fun h => ?_, fun h => ?_⟩⟩
  · rw [calculate_simplified_lcos, if_neg (not_lt.mpr h)]
  · rw [calculate_simplified_lcos, if_pos h]

/-- C3 witness: the fallback branch fires at cycles 0, efficiency 50 even with
nonzero capex. -/
theorem lcos_fallback_and_quotient_branch_witness :
    calculate_simplified_lcos 5 1 0 50 = 0 :=
  (lcos_fallback_and_quotient_branch.2 5 1 0 50).1 (by
    rw [total_energy_discharged, realizable_cycles, total_calendar_cycles,
      min_eq_left (by norm_num : (0 : ℝ) ≤ 20 * 365 * 1)]
    norm_num)

/-- C2 counterexample: run the generation on a catalog whose single entry has
a name with no dispatch branch.  No error is raised; instead a silently
defaulted record is produced — capex 0, efficiency 0, cycle life 0, energy
density 0, opex 0, and LCOS 0 — refuting "fails loudly rather than silently
producing a defaulted record". -/
theorem unknown_tech_silent_default :
    getBessData [⟨"Mystery Tech", "Experimental", "Concept"⟩] [0] =
      [{ technology := "Mystery Tech", category := "Experimental",
         maturity := "Concept", timeframeYears := 0, year := 2025,
         capex := 0, efficiency := 0, cycleLife := 0, energyDensity := 0,
         opexPercent := 0, lcos := 0 }] := by
  have hd : trendMetrics "Mystery Tech" 0 = initVars := by
    simp [trendMetrics, dispatch]
  rw [getBessData]
  simp only [List.flatMap_cons, List.map_cons, List.map_nil,
    List.flatMap_nil, List.append_nil]
  rw [makeRow_default ⟨"Mystery Tech", "Experimental", "Concept"⟩ 0 hd]

/-- C2 amended: for a technology name carrying no branch of the dispatch
chain, the generation does not raise: the dispatch leaves the variable state
untouched, so the freshly initialized zeros survive and the loop silently
appends a fully defaulted record (capex 0, efficiency 0, cycle life 0, energy
density 0, opex 0, LCOS 0 through the zero-energy fallback). -/
theorem unknown_tech_defaults (t : CatEntry) (y : ℕ)
    (h : t.name ∉ knownTechs) :
    (∀ v : RawVars, dispatch t.name y v = v) ∧
    makeRow t y =
      { technology := t.name, category := t.category, maturity := t.maturity,
        timeframeYears := y, year := 2025 + y, capex := 0, efficiency := 0,
        cycleLife := 0, energyDensity := 0, opexPercent := 0, lcos := 0 } := by
  simp only [knownTechs, List.mem_cons, List.not_mem_nil, or_false,
    not_or] at h
  obtain ⟨h1, h2, h3, h4, h5, h6, h7, h8⟩ := h
  have hd : ∀ v : RawVars, dispatch t.name y v = v := by
    intro v
    rw [dispatch]
    simp [h1, h2, h3, h4, h5, h6, h7, h8]
  have htm : trendMetrics t.name y = initVars := by
    rw [trendMetrics, hd]
  exact ⟨hd, makeRow_default t y htm⟩

/-- C2 witness: a concrete unknown name, absent from the dispatch chain,
passes through the dispatch unchanged and yields the defaulted record. -/
theorem unknown_tech_defaults_witness :
    dispatch "Gravity Brick" 5 initVars = initVars ∧
    makeRow ⟨"Gravity Brick", "Developing", "Concept"⟩ 5 =
      { technology := "Gravity Brick", category := "Developing",
        maturity := "Concept", timeframeYears := 5, year := 2030,
        capex := 0, efficiency := 0, cycleLife := 0, energyDensity := 0,
        opexPercent := 0, lcos := 0 } := by
  have h := unknown_tech_defaults ⟨"Gravity Brick", "Developing", "Concept"⟩ 5
    (by simp [knownTechs])
  exact ⟨h.1 initVars, h.2⟩

/-- Inner loop over the horizons: whatever variable state and row accumulator
the fold starts from, it appends exactly the per-pair records. -/
lemma innerFold_eq (t : CatEntry) : ∀ (tfs : List ℕ) (s : RawVars)
    (rows : List Row), ∃ s' : RawVars,
    tfs.foldl (fun a y => loopStep t y a) (s, rows) =
      (s', rows ++ tfs.map (makeRow t)) := by
  intro tfs
  induction tfs with
  | nil => exact fun s rows => ⟨s, by simp⟩
  | cons y ys ih =>
    intro s rows
    obtain ⟨s', h⟩ := ih (clampEff (dispatch t.name y initVars))
      (rows ++ [rowFrom t y (clampEff (dispatch t.name y initVars))])
    refine ⟨s', ?_⟩
    rw [List.foldl_cons]
    show (ys.foldl (fun a y => loopStep t y a)
      (clampEff (dispatch t.name y initVars),
        rows ++ [rowFrom t y (clampEff (dispatch t.name y initVars))])) = _
    rw [h, List.map_cons]
    simp [makeRow, trendMetrics]

/-- Outer loop over the catalog: the threaded variable state never influences
the rows that are emitted. -/
lemma outerFold_eq : ∀ (catalog : List CatEntry) (tfs : List ℕ)
    (s : RawVars) (rows : List Row), ∃ s' : RawVars,
    catalog.foldl (fun acc t => tfs.foldl (fun a y => loopStep t y a) acc)
        (s, rows) =
      (s', rows ++ catalog.flatMap (fun t => tfs.map (makeRow t))) := by
  intro catalog
  induction catalog with
  | nil => exact fun tfs s rows => ⟨s, by simp⟩
  | cons t ts ih =>
    intro tfs s rows
    obtain ⟨s1, h1⟩ := innerFold_eq t tfs s rows
    obtain ⟨s2, h2⟩ := ih tfs s1 (rows ++ tfs.map (makeRow t))
    refine ⟨s2, ?_⟩
    rw [List.foldl_cons, h1, h2, List.flatMap_cons]
    simp

/-- C9: the generation is a pure, deterministic function of the catalog and
the horizon set.  The loop with its threaded mutable variable state produces,
from any initial variable state, exactly the per-pair map — so two invocations
(with arbitrary, even different, leftover variable states) yield identical
datasets: same records, same field values, same order. -/
theorem get_bess_data_deterministic (s₁ s₂ : RawVars)
    (catalog : List CatEntry) (tfs : List ℕ) :
    getBessDataLoop s₁ catalog tfs = getBessData catalog tfs ∧
    getBessDataLoop s₁ catalog tfs = getBessDataLoop s₂ catalog tfs := by
  have k : ∀ s : RawVars,
      getBessDataLoop s catalog tfs = getBessData catalog tfs := by
    intro s
    obtain ⟨s', h⟩ := outerFold_eq catalog tfs s []
    rw [getBessDataLoop, h, getBessData]
    simp
  exact ⟨k s₁, (k s₁).trans (k s₂).symm⟩

/-- C10: the LCOS field stored in each record is computed from the
pre-rounding capex and the clamped but pre-rounding efficiency (and the raw
cycles value), while the displayed CAPEX and Efficiency fields are rounded
independently of it. -/
theorem lcos_uses_preround_values (t : CatEntry) (y : ℕ) :
    (makeRow t y).capex = round2 (trendMetrics t.name y).capex ∧
    (makeRow t y).efficiency =
      round2 (min (trendMetrics t.name y).efficiency 99.9) ∧
    (makeRow t y).lcos = calculate_simplified_lcos
      ((trendMetrics t.name y).capex : ℝ)
      ((trendMetrics t.name y).opexPercent : ℝ)
      ((trendMetrics t.name y).cycles : ℝ)
      ((min (trendMetrics t.name y).efficiency 99.9 : ℚ) : ℝ) := by
  refine ⟨?_, ?_, ?_⟩ <;> simp [makeRow, rowFrom, clampEff]

end Bess
